import Mathlib

/-!
Verification of the progress-throttle / formatter core of
`youtube_downloader.py` (MohamedElHassan/python-youtube-downloader-script).

The Python source is shallowly embedded: numeric values (Python ints and
floats) are modelled as rationals `ℚ` (all arithmetic at the relevant call
sites is exact in binary floating point for realistic byte counts, so the
rational model is faithful, including Python's round-half-to-even rule used
by the `:.1f` format); dictionary fields that may be missing or `None` are
modelled as `Option`; the one fallible operation reachable in the throttle
(division) is modelled in `Option`, so a `none` result of the handler would
correspond to a raised exception. Colour constants model the documented
colorama-absent fallback, in which every attribute is the empty string.
-/

namespace YTDL

/-- Colour constants of class `Colors`; in the colorama-absent fallback every
attribute of the dummy object is the empty string. -/
def C.RED : String := ""

/-- Colour constant `Colors.GREEN` (dummy fallback). -/
def C.GREEN : String := ""

/-- Colour constant `Colors.YELLOW` (dummy fallback). -/
def C.YELLOW : String := ""

/-- Colour constant `Colors.BLUE` (dummy fallback). -/
def C.BLUE : String := ""

/-- Colour constant `Colors.CYAN` (dummy fallback). -/
def C.CYAN : String := ""

/-- Colour constant `Colors.WHITE` (dummy fallback). -/
def C.WHITE : String := ""

/-- Colour constant `Colors.BOLD` (dummy fallback). -/
def C.BOLD : String := ""

/-- Colour constant `Colors.END` (dummy fallback). -/
def C.END : String := ""

/-- Round a rational to the nearest integer, ties to even: the rounding Python
applies when formatting an exactly represented binary float with `:.1f`. -/
def roundHalfEven (q : ℚ) : ℤ :=
  let f : ℤ := ⌊q⌋
  if q - f < 1 / 2 then f
  else if (1 : ℚ) / 2 < q - f then f + 1
  else if f % 2 = 0 then f else f + 1

/-- Python's `f"{x:.1f}"` for a non-negative value: one digit after the
decimal point, rounding half to even. -/
def formatFixed1 (q : ℚ) : String :=
  let d : ℕ := (roundHalfEven (q * 10)).toNat
  toString (d / 10) ++ "." ++ toString (d % 10)

/-- Left-pad a string with spaces to a minimum width, as a Python format
width specifier such as `:5.1f` does. -/
def padLeftSpaces (w : ℕ) (s : String) : String :=
  if s.length < w then String.mk (List.replicate (w - s.length) ' ') ++ s else s

/-- The unit list of `format_size`. -/
def units : List String := ["B", "KB", "MB", "GB", "TB"]

/-- The `while size >= 1024 and i < len(units) - 1` loop of `format_size`.
The loop runs at most `len(units) - 1` times, so any fuel of at least
`units.length` makes the recursion exhaustive. -/
def sizeLoop : ℚ → ℕ → ℕ → ℚ × ℕ
  | size, i, 0 => (size, i)
  | size, i, fuel + 1 =>
    if 1024 ≤ size ∧ i < units.length - 1 then
      sizeLoop (size / 1024) (i + 1) fuel
    else (size, i)

/-- `format_size(size_bytes)`: convert bytes to a human-readable string.
`none` models an absent or non-numeric argument. -/
def format_size : Option ℚ → String
  | none => "N/A"
  | some size_bytes =>
    if size_bytes ≤ 0 then "N/A"
    else
      let p := sizeLoop size_bytes 0 units.length
      formatFixed1 p.1 ++ " " ++ units.getD p.2 ""

/-- The unit index `format_size` ends on for a byte count. -/
def sizeUnitIndex (n : ℚ) : ℕ :=
  (sizeLoop n 0 units.length).2

/-- Python's `f"{n:02d}"` for a non-negative integer: zero-pad to width 2. -/
def pad2 (n : ℕ) : String :=
  if n < 10 then "0" ++ toString n else toString n

/-- `format_duration(seconds)`: convert seconds to `hh:mm:ss` / `mm:ss`.
`none` models an absent or non-numeric argument. -/
def format_duration : Option ℤ → String
  | none => "N/A"
  | some seconds =>
    if seconds ≤ 0 then "N/A"
    else
      let n := seconds.toNat
      let h := n / 3600
      let m := n % 3600 / 60
      let s := n % 60
      if 0 < h then pad2 h ++ ":" ++ pad2 m ++ ":" ++ pad2 s
      else pad2 m ++ ":" ++ pad2 s

/-- Python truthiness of an optional number: `None` and `0` are falsy. -/
def qtruthy : Option ℚ → Bool
  | none => false
  | some x => x ≠ 0

/-- Python's `a or b` on two optional numbers: the first operand if it is
truthy, the second otherwise (models `d.get('total_bytes') or
d.get('total_bytes_estimate')`). -/
def pyOrQ (a b : Option ℚ) : Option ℚ :=
  if qtruthy a then a else b

/-- Python division: raises (here: `none`) on a zero divisor. -/
def pydiv (a b : ℚ) : Option ℚ :=
  if b = 0 then none else some (a / b)

/-- `PurePosixPath(s).name`: the final path component. -/
def pathName (s : String) : String :=
  ((s.splitOn "/").filter (fun c => c ≠ "")).getLastD ""

/-- The fields the `downloading` branch of the hook reads from the progress
dictionary `d`; `none` models an absent key (or a `None` value). -/
structure DownloadingData where
  filename : Option String
  downloaded_bytes : Option ℚ
  total_bytes : Option ℚ
  total_bytes_estimate : Option ℚ
  speed : Option ℚ
  eta : Option ℤ
  playlist_index : Option ℕ
  playlist_count : Option ℕ
deriving Repr

/-- A progress dictionary, split by its `status` key; `other` covers any
status string with no matching branch in the hook. -/
inductive ProgressEvent where
  | downloading (dd : DownloadingData)
  | finished (filepath : Option String)
  | errored (msg : Option String)
  | other (status : Option String)
deriving Repr

/-- The mutable state of `EnhancedProgressHook`: `__init__` sets
`last_update_time = 0` and `current_video_info = ""`. -/
structure EnhancedProgressHook where
  last_update_time : ℚ
  current_video_info : String
deriving Repr, DecidableEq

/-- The percent field: `f"{(downloaded / total) * 100:5.1f}%" if total else
"---.-%"`; `none` would be a raised exception from the division. -/
def percent_str (downloaded : ℚ) (total : Option ℚ) : Option String :=
  if qtruthy total then
    (pydiv downloaded (total.getD 0)).map
      (fun q => padLeftSpaces 5 (formatFixed1 (q * 100)) ++ "%")
  else some "---.-%"

/-- The speed field: `f"{format_size(speed)}/s" if speed else "N/A"`. -/
def speed_str (speed : Option ℚ) : String :=
  if qtruthy speed then format_size speed ++ "/s" else "N/A"

/-- The ETA field: `f"ETA: {format_duration(eta_seconds)}" if eta_seconds
else ""`, where `eta_seconds = d.get('eta', 0)`. -/
def eta_str (eta_seconds : ℤ) : String :=
  if eta_seconds ≠ 0 then "ETA: " ++ format_duration (some eta_seconds) else ""

/-- Lines 97–101 of the hook: when the info dict carries a truthy
`playlist_index` and `playlist_count`, `current_video_info` becomes the
`[index/count] ` prefix, else it is left alone. -/
def updateInfoState (st : EnhancedProgressHook) (dd : DownloadingData) :
    EnhancedProgressHook :=
  match dd.playlist_index, dd.playlist_count with
  | some pi, some pc =>
    if pi ≠ 0 ∧ pc ≠ 0 then
      { st with current_video_info :=
          "[" ++ toString pi ++ "/" ++ toString pc ++ "] " }
    else st
  | _, _ => st

/-- The overwritten status line the `downloading` branch prints (the
argument of its `print`, whose `end=""` suppresses the newline). -/
def downloadingLine (info ps : String) (downloaded : ℚ) (total : Option ℚ)
    (speed : Option ℚ) (eta_seconds : ℤ) (filename : String) : String :=
  "\r" ++ C.CYAN ++ info ++ "⬇️  " ++ ps ++ " | "
    ++ format_size (some downloaded) ++ "/" ++ format_size total
    ++ " @ " ++ speed_str speed ++ " | " ++ eta_str eta_seconds
    ++ " | " ++ filename ++ C.END

/-- The permanent completion line the `finished` branch prints. -/
def finishedLine (info filename : String) : String :=
  "\n" ++ C.GREEN ++ "✅ " ++ info ++ "Completed: " ++ filename ++ C.END

/-- `EnhancedProgressHook.__call__(d)`. `current_time` is the value
`time.time()` returns during the call, in seconds (so 500 ms is `1/2`).
The result is the new state paired with the list of strings printed; `none`
would model an uncaught exception. -/
def EnhancedProgressHook.call (self : EnhancedProgressHook) (current_time : ℚ) :
    ProgressEvent → Option (EnhancedProgressHook × List String)
  | .downloading dd =>
    if current_time - self.last_update_time < 1 / 2 then
      some (self, [])
    else
      let st2 := updateInfoState { self with last_update_time := current_time } dd
      let filename := (pathName (dd.filename.getD "...")).take 40
      let downloaded := dd.downloaded_bytes.getD 0
      let total := pyOrQ dd.total_bytes dd.total_bytes_estimate
      let eta_seconds := dd.eta.getD 0
      (percent_str downloaded total).map fun ps =>
        (st2,
         [downloadingLine st2.current_video_info ps downloaded total dd.speed
            eta_seconds filename])
  | .finished filepath =>
    some (self,
      [finishedLine self.current_video_info (pathName (filepath.getD "file"))])
  | .errored _ => some (self, [])
  | .other _ => some (self, [])

/-- The info dictionary returned by the resolver's `extract_info`, restricted
to the keys this program reads. An entry of the `entries` list is `none` when
the resolver reports an unavailable (deleted/private) item as `None`, and
`some ()` otherwise; `entries = none` models an info dict without an
`entries` key (a single video). -/
structure InfoDict where
  typeTag : Option String
  title : Option String
  uploader : Option String
  duration : Option ℤ
  entries : Option (List (Option Unit))
deriving Repr

/-- Outcome of the external `ydl.extract_info(url, download=False)` call:
it either raises an extractor/download error or returns a (possibly `None`)
info dictionary. -/
inductive ExtractOutcome where
  | raised (msg : String)
  | returned (info : Option InfoDict)
deriving Repr

/-- The message of the `ExtractorError` raised on an empty result set. -/
def noVideosMsg : String :=
  "No valid videos found at the URL. The content may be private or deleted."

/-- `get_content_info(url, cookies_from)`: the returned info dict (or `None`)
paired with the lines printed on the failure path. A `None` result from
`extract_info`, or an `entries` key holding an empty list, raises the
`ExtractorError` which the surrounding `except` turns into an error print
and a `None` return. (The leading "Extracting..." banner and the cookie
plumbing do not affect the result and are omitted.) -/
def get_content_info : ExtractOutcome → Option InfoDict × List String
  | .raised msg =>
    (none, [C.RED ++ "❌ Failed to extract info: " ++ msg ++ C.END])
  | .returned none =>
    (none, [C.RED ++ "❌ Failed to extract info: " ++ noVideosMsg ++ C.END])
  | .returned (some info) =>
    match info.entries with
    | some l =>
      if l.isEmpty then
        (none, [C.RED ++ "❌ Failed to extract info: " ++ noVideosMsg ++ C.END])
      else (some info, [])
    | none => (some info, [])

/-- `display_content_info(info)`: the lines printed as the content summary. -/
def display_content_info (info : InfoDict) : List String :=
  let content_type := info.typeTag.getD "video"
  if content_type = "playlist" ∨ content_type = "multi_video" then
    let title := info.title.getD "Unknown Playlist"
    let uploader := info.uploader.getD "Unknown Creator"
    let valid_entries := (info.entries.getD []).filter (fun e => e.isSome)
    ["\n" ++ C.WHITE ++ C.BOLD ++ "📊 Content Information:" ++ C.END,
     "   📋 Type:    " ++ C.CYAN ++ "Playlist" ++ C.END,
     "   📋 Title:   " ++ C.CYAN ++ title ++ C.END,
     "   👤 Creator: " ++ C.GREEN ++ uploader ++ C.END,
     "   🎬 Videos:  " ++ C.YELLOW ++ toString valid_entries.length ++ C.END]
  else
    let title := info.title.getD "Unknown Video"
    let uploader := info.uploader.getD "Unknown Channel"
    let duration := info.duration.getD 0
    ["\n" ++ C.WHITE ++ C.BOLD ++ "📊 Content Information:" ++ C.END,
     "   🎬 Type:     " ++ C.CYAN ++ "Single Video" ++ C.END,
     "   📺 Title:    " ++ C.CYAN ++ title ++ C.END,
     "   👤 Channel:  " ++ C.GREEN ++ uploader ++ C.END,
     "   ⏱️ Duration: " ++ C.YELLOW ++ format_duration (some duration) ++ C.END]

/-- One step of `main` after argument parsing, in execution order. -/
inductive MainStep where
  | checkDeps
  | extractInfo
  | displayInfo
  | selectFormat
  | download
  | exitError
  | exitOk
deriving Repr, DecidableEq

/-- The sequence of steps `main` performs, as a function of the extractor
outcome and of the user's format selection (`none` models quitting the
quality menu). `sys.exit(1)` on a failed probe, `sys.exit(0)` on quit,
otherwise `download_content` runs. -/
def mainSteps (res : ExtractOutcome) (formatChoice : Option String) :
    List MainStep :=
  [MainStep.checkDeps, MainStep.extractInfo] ++
    match (get_content_info res).1 with
    | none => [MainStep.exitError]
    | some _ =>
      [MainStep.displayInfo, MainStep.selectFormat] ++
        match formatChoice with
        | none => [MainStep.exitOk]
        | some _ => [MainStep.download]

/-- A string occurs contiguously inside another. -/
def strContains (l s : String) : Prop :=
  ∃ a b : List Char, a ++ s.data ++ b = l.data

/-- A list of printed lines contains a string somewhere. -/
def linesContain (lines : List String) (s : String) : Prop :=
  ∃ l ∈ lines, strContains l s

/-- The percent field never fails: the division is guarded by the truthiness
check on `total`, so a zero or absent total never reaches it. -/
lemma percent_str_isSome (dl : ℚ) (tot : Option ℚ) :
    ∃ ps, percent_str dl tot = some ps := by
  unfold percent_str pydiv qtruthy
  cases tot with
  | none => exact ⟨"---.-%", rfl⟩
  | some x =>
    by_cases hx : x = 0
    · simp [hx]
    · simp [hx]

/-- The playlist-label update never touches `last_update_time`. -/
lemma updateInfoState_last (st : EnhancedProgressHook) (dd : DownloadingData) :
    (updateInfoState st dd).last_update_time = st.last_update_time := by
  unfold updateInfoState
  cases dd.playlist_index with
  | none => rfl
  | some pi =>
    cases dd.playlist_count with
    | none => rfl
    | some pc =>
      by_cases h : pi ≠ 0 ∧ pc ≠ 0
      · simp [h]
      · simp [h]

/-- A `downloading` event arriving under 500 ms after the last emission is
dropped: no output, no state change. -/
lemma call_drop (s : EnhancedProgressHook) (t : ℚ) (dd : DownloadingData)
    (h : t - s.last_update_time < 1 / 2) :
    s.call t (.downloading dd) = some (s, []) := by
  simp only [EnhancedProgressHook.call]
  rw [if_pos h]

/-- A `downloading` event arriving 500 ms or more after the last emission is
rendered: the state is stamped with the current time and exactly one status
line is produced. -/
lemma call_emit (s : EnhancedProgressHook) (t : ℚ) (dd : DownloadingData)
    (h : ¬ t - s.last_update_time < 1 / 2) :
    ∃ ps, percent_str (dd.downloaded_bytes.getD 0)
        (pyOrQ dd.total_bytes dd.total_bytes_estimate) = some ps ∧
      s.call t (.downloading dd) =
        some (updateInfoState { s with last_update_time := t } dd,
          [downloadingLine
            (updateInfoState { s with last_update_time := t } dd).current_video_info
            ps (dd.downloaded_bytes.getD 0)
            (pyOrQ dd.total_bytes dd.total_bytes_estimate) dd.speed
            (dd.eta.getD 0) ((pathName (dd.filename.getD "...")).take 40)]) := by
  obtain ⟨ps, hps⟩ := percent_str_isSome (dd.downloaded_bytes.getD 0)
    (pyOrQ dd.total_bytes dd.total_bytes_estimate)
  refine ⟨ps, hps, ?_⟩
  simp only [EnhancedProgressHook.call]
  rw [if_neg h, hps]
  rfl

/-- The size loop only ever advances the unit index. -/
lemma sizeLoop_idx_ge (fuel : ℕ) :
    ∀ (s : ℚ) (i : ℕ), i ≤ (sizeLoop s i fuel).2 := by
  induction fuel with
  | zero => intro s i; simp [sizeLoop]
  | succ f ih =>
    intro s i
    rw [sizeLoop]
    split
    · exact le_trans (Nat.le_succ i) (ih _ _)
    · simp

/-- A larger starting size never ends on a smaller unit index. -/
lemma sizeLoop_idx_mono (fuel : ℕ) :
    ∀ (s t : ℚ) (i : ℕ), s ≤ t →
      (sizeLoop s i fuel).2 ≤ (sizeLoop t i fuel).2 := by
  induction fuel with
  | zero => intro s t i _; simp [sizeLoop]
  | succ f ih =>
    intro s t i hst
    rw [sizeLoop, sizeLoop]
    by_cases hs : 1024 ≤ s ∧ i < units.length - 1
    · rw [if_pos hs, if_pos ⟨le_trans hs.1 hst, hs.2⟩]
      exact ih _ _ _ (by gcongr)
    · rw [if_neg hs]
      split
      · exact le_trans (Nat.le_succ i) (sizeLoop_idx_ge f _ _)
      · simp

/-- Full description of a run of the size loop: it returns the start value
divided by `1024 ^ k` after `k` iterations, it stops only when the value has
dropped below 1024, the unit index has hit the end of the unit list, or the
fuel ran out, and every performed iteration saw a value of at least 1024 and
a non-final unit index. -/
lemma sizeLoop_run (fuel : ℕ) :
    ∀ (s : ℚ) (i : ℕ), ∃ k : ℕ,
      sizeLoop s i fuel = (s / 1024 ^ k, i + k) ∧
      (s / 1024 ^ k < 1024 ∨ ¬ i + k < units.length - 1 ∨ k = fuel) ∧
      (∀ j, j < k → 1024 ≤ s / 1024 ^ j) ∧
      (∀ j, j < k → i + j < units.length - 1) := by
  induction fuel with
  | zero =>
    intro s i
    exact ⟨0, by simp [sizeLoop], Or.inr (Or.inr rfl),
      fun j hj => absurd hj (Nat.not_lt_zero j),
      fun j hj => absurd hj (Nat.not_lt_zero j)⟩
  | succ f ih =>
    intro s i
    by_cases h : 1024 ≤ s ∧ i < units.length - 1
    · obtain ⟨k', hres, hstop, hbig, hidx⟩ := ih (s / 1024) (i + 1)
      have hdiv : ∀ j : ℕ, s / 1024 / 1024 ^ j = s / 1024 ^ (j + 1) := by
        intro j
        rw [div_div, ← pow_succ']
      refine ⟨k' + 1, ?_, ?_, ?_, ?_⟩
      · rw [sizeLoop, if_pos h, hres, hdiv]
        congr 1
        omega
      · rcases hstop with hv | hi | hf
        · exact Or.inl (by rw [← hdiv]; exact hv)
        · exact Or.inr (Or.inl (by omega))
        · exact Or.inr (Or.inr (by omega))
      · intro j hj
        cases j with
        | zero => simpa using h.1
        | succ j' =>
          have := hbig j' (by omega)
          rwa [hdiv] at this
      · intro j hj
        cases j with
        | zero => simpa using h.2
        | succ j' =>
          have := hidx j' (by omega)
          omega
    · refine ⟨0, by rw [sizeLoop, if_neg h]; simp, ?_,
        fun j hj => absurd hj (Nat.not_lt_zero j),
        fun j hj => absurd hj (Nat.not_lt_zero j)⟩
      rcases not_and_or.mp h with hs | hi
      · exact Or.inl (by simpa using not_le.mp hs)
      · exact Or.inr (Or.inl (by simpa using hi))

/-- C2: `format_size` returns "N/A" when the input is absent or non-positive;
otherwise it renders the input divided by `1024 ^ i` with one decimal place
and unit `units[i]`, where the repeated division by 1024 stopped exactly when
the value dropped below 1024 or the unit list was exhausted; in particular
`format_size 0 = "N/A"`, `format_size 1536 = "1.5 KB"` and
`format_size 1073741824 = "1.0 GB"`. -/
theorem format_size_spec :
    format_size none = "N/A" ∧
    (∀ n : ℚ, n ≤ 0 → format_size (some n) = "N/A") ∧
    format_size (some 0) = "N/A" ∧
    format_size (some 1536) = "1.5 KB" ∧
    format_size (some 1073741824) = "1.0 GB" ∧
    (∀ n : ℚ, 0 < n → ∃ i : ℕ,
      format_size (some n) =
        formatFixed1 (n / 1024 ^ i) ++ " " ++ units.getD i "" ∧
      i < units.length ∧
      (n / 1024 ^ i < 1024 ∨ i = units.length - 1) ∧
      (∀ j, j < i → 1024 ≤ n / 1024 ^ j)) := by
  have hlen : units.length = 5 := rfl
  refine ⟨rfl, ?_, by norm_num [format_size], ?_, ?_, ?_⟩
  · intro n hn
    simp only [format_size]
    rw [if_pos hn]
  · norm_num [format_size, sizeLoop, units, formatFixed1, roundHalfEven]
    decide
  · norm_num [format_size, sizeLoop, units, formatFixed1, roundHalfEven]
    decide
  · intro n hn
    obtain ⟨k, hres, hstop, hbig, hidx⟩ := sizeLoop_run units.length n 0
    have hk4 : k ≤ units.length - 1 := by
      by_cases h0 : k = 0
      · omega
      · have := hidx (k - 1) (by omega)
        omega
    refine ⟨k, ?_, by omega, ?_, by simpa using hbig⟩
    · simp only [format_size]
      rw [if_neg (not_le.mpr hn), hres]
      simp
    · rcases hstop with h | h | h
      · exact Or.inl h
      · right; omega
      · exfalso; omega

/-- Witness for `format_size_spec` at `-3` (non-positive) and `2048`
(positive). -/
theorem format_size_spec_witness :
    format_size (some (-3)) = "N/A" ∧
    (∃ i : ℕ,
      format_size (some 2048) =
        formatFixed1 ((2048 : ℚ) / 1024 ^ i) ++ " " ++ units.getD i "" ∧
      i < units.length ∧
      ((2048 : ℚ) / 1024 ^ i < 1024 ∨ i = units.length - 1) ∧
      (∀ j, j < i → 1024 ≤ (2048 : ℚ) / 1024 ^ j)) :=
  ⟨format_size_spec.2.1 (-3) (by norm_num),
   format_size_spec.2.2.2.2.2 2048 (by norm_num)⟩

/-- C3: `format_duration` returns "N/A" when the input is absent or
non-positive; otherwise it decomposes the input into hours, minutes and
seconds (minutes and seconds below 60) and renders `hh:mm:ss` when the hour
field is positive and `mm:ss` otherwise, each field zero-padded to two
digits; in particular `format_duration 0 = "N/A"`,
`format_duration 65 = "01:05"` and `format_duration 3661 = "01:01:01"`. -/
theorem format_duration_spec :
    format_duration none = "N/A" ∧
    (∀ s : ℤ, s ≤ 0 → format_duration (some s) = "N/A") ∧
    format_duration (some 0) = "N/A" ∧
    format_duration (some 65) = "01:05" ∧
    format_duration (some 3661) = "01:01:01" ∧
    (∀ s : ℤ, 0 < s → ∃ h m sec : ℕ,
      s.toNat = h * 3600 + m * 60 + sec ∧ m < 60 ∧ sec < 60 ∧
      format_duration (some s) =
        (if 0 < h then pad2 h ++ ":" ++ pad2 m ++ ":" ++ pad2 sec
         else pad2 m ++ ":" ++ pad2 sec)) := by
  refine ⟨rfl, ?_, by decide, by decide, by decide, ?_⟩
  · intro s hs
    simp only [format_duration]
    rw [if_pos hs]
  · intro s hs
    refine ⟨s.toNat / 3600, s.toNat % 3600 / 60, s.toNat % 60,
      by omega, by omega, by omega, ?_⟩
    simp only [format_duration]
    rw [if_neg (not_le.mpr hs)]

/-- Witness for `format_duration_spec` at `-7` (non-positive) and `7322`
(positive, `02:02:02`). -/
theorem format_duration_spec_witness :
    format_duration (some (-7)) = "N/A" ∧
    (∃ h m sec : ℕ,
      (7322 : ℤ).toNat = h * 3600 + m * 60 + sec ∧ m < 60 ∧ sec < 60 ∧
      format_duration (some 7322) =
        (if 0 < h then pad2 h ++ ":" ++ pad2 m ++ ":" ++ pad2 sec
         else pad2 m ++ ":" ++ pad2 sec)) :=
  ⟨format_duration_spec.2.1 (-7) (by decide),
   format_duration_spec.2.2.2.2.2 7322 (by decide)⟩

/-- C8: the unit index `format_size` picks is monotone non-decreasing in the
byte count, and for a positive count the rendered unit is exactly
`units[sizeUnitIndex n]`. -/
theorem format_size_unit_mono (m n : ℚ) (hm : 0 < m) (hmn : m ≤ n) :
    sizeUnitIndex m ≤ sizeUnitIndex n ∧
    format_size (some m) =
      formatFixed1 (sizeLoop m 0 units.length).1 ++ " "
        ++ units.getD (sizeUnitIndex m) "" ∧
    format_size (some n) =
      formatFixed1 (sizeLoop n 0 units.length).1 ++ " "
        ++ units.getD (sizeUnitIndex n) "" := by
  refine ⟨sizeLoop_idx_mono units.length m n 0 hmn, ?_, ?_⟩
  · simp only [format_size, sizeUnitIndex]
    rw [if_neg (not_le.mpr hm)]
  · simp only [format_size, sizeUnitIndex]
    rw [if_neg (not_le.mpr (lt_of_lt_of_le hm hmn))]

/-- Witness for `format_size_unit_mono` at `500 ≤ 2000`. -/
theorem format_size_unit_mono_witness :
    (0 : ℚ) < 500 ∧ (500 : ℚ) ≤ 2000 ∧
    sizeUnitIndex 500 ≤ sizeUnitIndex 2000 :=
  ⟨by norm_num, by norm_num,
   (format_size_unit_mono 500 2000 (by norm_num) (by norm_num)).1⟩

/-- C1: a `downloading` event fewer than 500 ms after the last emission is
dropped with no output and no state mutation; one arriving 500 ms or later
stamps `last_update_time` with the current time and writes exactly one
status line; hence of two events 100 ms apart only the first emits, and of
two events 600 ms apart both emit. -/
theorem throttle_sampling_spec :
    (∀ (s : EnhancedProgressHook) (t : ℚ) (dd : DownloadingData),
       t - s.last_update_time < 1 / 2 →
       s.call t (.downloading dd) = some (s, [])) ∧
    (∀ (s : EnhancedProgressHook) (t : ℚ) (dd : DownloadingData),
       1 / 2 ≤ t - s.last_update_time →
       ∃ s' line, s.call t (.downloading dd) = some (s', [line]) ∧
         s'.last_update_time = t) ∧
    (∀ (s : EnhancedProgressHook) (t : ℚ) (dd1 dd2 : DownloadingData),
       1 / 2 ≤ t - s.last_update_time →
       ∃ s' line1, s.call t (.downloading dd1) = some (s', [line1]) ∧
         s'.call (t + 1 / 10) (.downloading dd2) = some (s', []) ∧
         ∃ s'' line2,
           s'.call (t + 3 / 5) (.downloading dd2) = some (s'', [line2])) := by
  have emit : ∀ (s : EnhancedProgressHook) (t : ℚ) (dd : DownloadingData),
      1 / 2 ≤ t - s.last_update_time →
      ∃ s' line, s.call t (.downloading dd) = some (s', [line]) ∧
        s'.last_update_time = t := by
    intro s t dd h
    obtain ⟨ps, _, hcall⟩ := call_emit s t dd (not_lt.mpr h)
    exact ⟨_, _, hcall, updateInfoState_last _ _⟩
  refine ⟨call_drop, emit, ?_⟩
  intro s t dd1 dd2 h
  obtain ⟨s', line1, hcall1, hlast⟩ := emit s t dd1 h
  refine ⟨s', line1, hcall1, ?_, ?_⟩
  · exact call_drop s' (t + 1 / 10) dd2 (by rw [hlast]; linarith)
  · obtain ⟨s'', line2, hcall2, _⟩ :=
      emit s' (t + 3 / 5) dd2 (by rw [hlast]; linarith)
    exact ⟨s'', line2, hcall2⟩

/-- Witness for `throttle_sampling_spec`: from the initial state, an event at
t = 0.25 s is dropped, and an event at t = 1 s emits, drops a follower at
1.1 s, and emits a follower at 1.6 s. -/
theorem throttle_sampling_witness :
    (EnhancedProgressHook.call ⟨0, ""⟩ (1 / 4)
       (.downloading ⟨none, none, none, none, none, none, none, none⟩) =
     some (⟨0, ""⟩, [])) ∧
    (∃ s' line1,
      EnhancedProgressHook.call ⟨0, ""⟩ 1
        (.downloading ⟨none, none, none, none, none, none, none, none⟩) =
          some (s', [line1]) ∧
      s'.call (1 + 1 / 10)
        (.downloading ⟨none, none, none, none, none, none, none, none⟩) =
          some (s', []) ∧
      ∃ s'' line2,
        s'.call (1 + 3 / 5)
          (.downloading ⟨none, none, none, none, none, none, none, none⟩) =
            some (s'', [line2])) :=
  ⟨throttle_sampling_spec.1 ⟨0, ""⟩ (1 / 4) _ (by norm_num),
   throttle_sampling_spec.2.2 ⟨0, ""⟩ 1 _ _ (by norm_num)⟩

/-- C4: a `finished` event always emits exactly one completion line,
whatever the current time is relative to the last emission; the line
contains the file name component of the event's path and the current item
label prefix, and the state is untouched. -/
theorem finished_always_emits :
    ∀ (s : EnhancedProgressHook) (t : ℚ) (fp : Option String),
      ∃ line, s.call t (.finished fp) = some (s, [line]) ∧
        strContains line (pathName (fp.getD "file")) ∧
        strContains line s.current_video_info := by
  intro s t fp
  refine ⟨finishedLine s.current_video_info (pathName (fp.getD "file")),
    rfl, ?_, ?_⟩
  · exact ⟨("\n" ++ C.GREEN ++ "✅ " ++ s.current_video_info
        ++ "Completed: ").data, C.END.data,
      by simp [finishedLine, String.data_append]⟩
  · exact ⟨("\n" ++ C.GREEN ++ "✅ ").data,
      ("Completed: " ++ pathName (fp.getD "file") ++ C.END).data,
      by simp [finishedLine, String.data_append]⟩

/-- C5: the hook's call is total on every event (the one division is guarded
by the truthiness check on the total, so no input reaches a failing
operation), and each missing or falsy numeric field degrades to its
placeholder: an unknown or zero total renders "---.-%", an absent or zero
speed renders "N/A", an absent `downloaded_bytes` defaults to 0 and renders
"N/A", an absent total renders "N/A" in the size field, and an absent or
zero ETA renders the empty ETA field. -/
theorem throttle_never_raises :
    (∀ (s : EnhancedProgressHook) (t : ℚ) (e : ProgressEvent),
       (s.call t e).isSome = true) ∧
    (∀ dl : ℚ, percent_str dl none = some "---.-%") ∧
    (∀ dl : ℚ, percent_str dl (some 0) = some "---.-%") ∧
    speed_str none = "N/A" ∧
    speed_str (some 0) = "N/A" ∧
    format_size (some 0) = "N/A" ∧
    format_size none = "N/A" ∧
    eta_str 0 = "" := by
  refine ⟨?_, fun dl => rfl, fun dl => ?_, rfl, ?_, by norm_num [format_size],
    rfl, rfl⟩
  · intro s t e
    cases e with
    | downloading dd =>
      by_cases h : t - s.last_update_time < 1 / 2
      · rw [call_drop s t dd h]; rfl
      · obtain ⟨ps, _, hcall⟩ := call_emit s t dd h
        rw [hcall]; rfl
    | finished fp => rfl
    | errored m => rfl
    | other st => rfl
  · simp [percent_str, qtruthy]
  · simp [speed_str, qtruthy]

/-- C9: `finished`, `errored` and unrecognised events leave the throttle
state exactly as it was (in particular a `finished` emission does not reset
the 500 ms sampling window), and a dropped `downloading` event also leaves
it unchanged — so only a non-dropped `downloading` event ever mutates the
state. -/
theorem throttle_frame_spec :
    (∀ (s : EnhancedProgressHook) (t : ℚ) (fp : Option String),
       s.call t (.finished fp) =
         some (s, [finishedLine s.current_video_info
           (pathName (fp.getD "file"))])) ∧
    (∀ (s : EnhancedProgressHook) (t : ℚ) (m : Option String),
       s.call t (.errored m) = some (s, [])) ∧
    (∀ (s : EnhancedProgressHook) (t : ℚ) (st : Option String),
       s.call t (.other st) = some (s, [])) ∧
    (∀ (s : EnhancedProgressHook) (t : ℚ) (dd : DownloadingData),
       t - s.last_update_time < 1 / 2 →
       s.call t (.downloading dd) = some (s, [])) :=
  ⟨fun _ _ _ => rfl, fun _ _ _ => rfl, fun _ _ _ => rfl, call_drop⟩

/-- Witness for `throttle_frame_spec`: at time 0 since the last emission at
time 0, a `downloading` event is dropped without touching the state. -/
theorem throttle_frame_witness :
    (0 : ℚ) - (⟨0, "[1/3] "⟩ : EnhancedProgressHook).last_update_time < 1 / 2 ∧
    EnhancedProgressHook.call ⟨0, "[1/3] "⟩ 0
      (.downloading ⟨none, none, none, none, none, none, none, none⟩) =
        some (⟨0, "[1/3] "⟩, []) :=
  ⟨by norm_num, throttle_frame_spec.2.2.2 ⟨0, "[1/3] "⟩ 0 _ (by norm_num)⟩

/-- A middle factor of a two-sided append is contained in the whole. -/
lemma strContains_core (pre mid post : String) :
    strContains (pre ++ mid ++ post) mid :=
  ⟨pre.data, post.data, by simp [String.data_append]⟩

/-- C6: the summary renderer shows, for a playlist info dict, its title, its
uploader and its (valid-entry) item count, and, for a single video, its
title, its uploader and its duration formatted by `format_duration`; in
particular a playlist titled "X" by "Y" with 5 entries renders a block
containing "X", "Y" and "5", and a single video of duration 0 renders
"N/A" for the duration. -/
theorem summary_render_spec :
    (∀ (title uploader : String) (dur : Option ℤ) (es : List (Option Unit)),
       linesContain (display_content_info
         { typeTag := some "playlist", title := some title,
           uploader := some uploader, duration := dur,
           entries := some es }) title ∧
       linesContain (display_content_info
         { typeTag := some "playlist", title := some title,
           uploader := some uploader, duration := dur,
           entries := some es }) uploader ∧
       linesContain (display_content_info
         { typeTag := some "playlist", title := some title,
           uploader := some uploader, duration := dur,
           entries := some es })
         (toString (es.filter (fun e => e.isSome)).length)) ∧
    (∀ (title uploader : String) (d : ℤ),
       linesContain (display_content_info
         { typeTag := none, title := some title, uploader := some uploader,
           duration := some d, entries := none }) title ∧
       linesContain (display_content_info
         { typeTag := none, title := some title, uploader := some uploader,
           duration := some d, entries := none }) uploader ∧
       linesContain (display_content_info
         { typeTag := none, title := some title, uploader := some uploader,
           duration := some d, entries := none })
         (format_duration (some d))) ∧
    linesContain (display_content_info
      { typeTag := some "playlist", title := some "X", uploader := some "Y",
        duration := none,
        entries := some [some (), some (), some (), some (), some ()] })
      "5" ∧
    linesContain (display_content_info
      { typeTag := none, title := some "T", uploader := some "U",
        duration := some 0, entries := none }) "N/A" := by
  refine ⟨?_, ?_, ?_, ?_⟩
  · intro title uploader dur es
    refine ⟨⟨"   📋 Title:   " ++ C.CYAN ++ title ++ C.END, ?_,
        strContains_core _ _ _⟩,
      ⟨"   👤 Creator: " ++ C.GREEN ++ uploader ++ C.END, ?_,
        strContains_core _ _ _⟩,
      ⟨"   🎬 Videos:  " ++ C.YELLOW
          ++ toString (es.filter (fun e => e.isSome)).length ++ C.END, ?_,
        strContains_core _ _ _⟩⟩ <;>
      simp [display_content_info]
  · intro title uploader d
    refine ⟨⟨"   📺 Title:    " ++ C.CYAN ++ title ++ C.END, ?_,
        strContains_core _ _ _⟩,
      ⟨"   👤 Channel:  " ++ C.GREEN ++ uploader ++ C.END, ?_,
        strContains_core _ _ _⟩,
      ⟨"   ⏱️ Duration: " ++ C.YELLOW ++ format_duration (some d) ++ C.END, ?_,
        strContains_core _ _ _⟩⟩ <;>
      simp [display_content_info]
  · exact ⟨"   🎬 Videos:  " ++ C.YELLOW ++ "5" ++ C.END,
      by simp [display_content_info]; decide, strContains_core _ _ _⟩
  · exact ⟨"   ⏱️ Duration: " ++ C.YELLOW ++ "N/A" ++ C.END,
      by simp [display_content_info]; decide, strContains_core _ _ _⟩

/-- C10: the item count the summary renderer displays for a playlist is the
number of non-`None` entries, so with a deleted (hence `None`) entry the
displayed count is smaller than the raw entry list length: for entries
`[video, None, video]` the raw length is 3 but the rendered block contains
"2". -/
theorem playlist_count_spec :
    (∀ (title uploader : String) (dur : Option ℤ) (es : List (Option Unit)),
       linesContain (display_content_info
         { typeTag := some "playlist", title := some title,
           uploader := some uploader, duration := dur,
           entries := some es })
         (toString (es.filter (fun e => e.isSome)).length)) ∧
    ([some (), none, some ()] : List (Option Unit)).length = 3 ∧
    (([some (), none, some ()] : List (Option Unit)).filter
      (fun e => e.isSome)).length = 2 ∧
    linesContain (display_content_info
      { typeTag := some "playlist", title := some "P", uploader := some "U",
        duration := none, entries := some [some (), none, some ()] }) "2" := by
  refine ⟨?_, rfl, rfl, ?_⟩
  · intro title uploader dur es
    exact ⟨"   🎬 Videos:  " ++ C.YELLOW
        ++ toString (es.filter (fun e => e.isSome)).length ++ C.END,
      by simp [display_content_info], strContains_core _ _ _⟩
  · exact ⟨"   🎬 Videos:  " ++ C.YELLOW ++ "2" ++ C.END,
      by simp [display_content_info]; decide, strContains_core _ _ _⟩

/-- C7: a probe that raises, returns no info dict, or returns a dict whose
`entries` list is empty yields no content info and a printed error, and in
that case `main` exits with an error immediately after the extraction step:
no download (and no summary, no prompt) ever happens. -/
theorem probe_failure_aborts :
    (∀ (res : ExtractOutcome) (choice : Option String),
       (get_content_info res).1 = none →
       mainSteps res choice =
         [MainStep.checkDeps, MainStep.extractInfo, MainStep.exitError] ∧
       MainStep.download ∉ mainSteps res choice ∧
       (get_content_info res).2 ≠ []) ∧
    (∀ info : InfoDict, info.entries = some [] →
       (get_content_info (.returned (some info))).1 = none) ∧
    (get_content_info (.returned none)).1 = none ∧
    (∀ msg, (get_content_info (.raised msg)).1 = none) := by
  refine ⟨?_, ?_, rfl, fun msg => rfl⟩
  · intro res choice h
    refine ⟨by simp [mainSteps, h], by simp [mainSteps, h], ?_⟩
    cases res with
    | raised m => simp [get_content_info]
    | returned oinfo =>
      cases oinfo with
      | none => simp [get_content_info]
      | some info =>
        cases hE : info.entries with
        | none => simp [get_content_info, hE] at h
        | some l =>
          by_cases hl : l.isEmpty
          · simp [get_content_info, hE, hl]
          · simp [get_content_info, hE, hl] at h
  · intro info h
    simp [get_content_info, h]

/-- Witness for `probe_failure_aborts`: a probe returning a playlist dict
with an empty `entries` list aborts the session. -/
theorem probe_failure_aborts_witness :
    (get_content_info (.returned (some
      { typeTag := some "playlist", title := some "T", uploader := some "U",
        duration := none, entries := some [] }))).1 = none ∧
    mainSteps (.returned (some
      { typeTag := some "playlist", title := some "T", uploader := some "U",
        duration := none, entries := some [] })) (some "best") =
      [MainStep.checkDeps, MainStep.extractInfo, MainStep.exitError] ∧
    MainStep.download ∉ mainSteps (.returned (some
      { typeTag := some "playlist", title := some "T", uploader := some "U",
        duration := none, entries := some [] })) (some "best") := by
  have h1 := probe_failure_aborts.2.1
    { typeTag := some "playlist", title := some "T", uploader := some "U",
      duration := none, entries := some [] } rfl
  have h2 := probe_failure_aborts.1 (.returned (some
    { typeTag := some "playlist", title := some "T", uploader := some "U",
      duration := none, entries := some [] })) (some "best") h1
  exact ⟨h1, h2.1, h2.2.1⟩

end YTDL
